import Mathlib

/-!
Verification development for the neuro-endo-checker repository.

The repository is a TypeScript/React compatibility checker for
neuro-endovascular catheters.  The core logic consists of a CSV parser
(`parseCSV`), CSV-to-device ingestion (`csvToDevices`, `toNumber`), unit
conversion (`inchToMm`, `frToMm`), a device-store merge
(`handleCsvImport` / `fetchCSV`), and a pure compatibility evaluator
(`useCompatibility`) together with the aggregate flags `anyIssue` and
`allGood`.

Two source files carry these definitions in several near-duplicate
variants:
  * `src/unnamed/part_001` — primary variant (namespace `Part001`
    below) plus a second, older variant further down the same file
    (namespace `Part001V2`);
  * `src/app/page.tsx` — a single-microcatheter variant (namespace
    `PageTsx`).

JavaScript numbers are modelled by `JSNum`: either NaN, one of the two
infinities, or a finite value represented exactly as a rational.  Double
rounding is abstracted away (all arithmetic in the claims stays far from
rounding boundaries); NaN and infinity propagation and the comparison
semantics (any comparison with NaN is false) follow IEEE / JavaScript.
`undefined` (a missing field or a missing device) is modelled by
`Option`.
-/

/-- Model of a JavaScript number: NaN, +Infinity, -Infinity, or a finite
value (represented exactly as a rational; double rounding is abstracted
away). -/
inductive JSNum where
  | nan : JSNum
  | posInf : JSNum
  | negInf : JSNum
  | fin : ℚ → JSNum
deriving DecidableEq, Repr

namespace JSNum

/-- JavaScript addition (`a + b`). NaN propagates; opposite infinities
give NaN. -/
def add : JSNum → JSNum → JSNum
  | nan, _ => nan
  | _, nan => nan
  | posInf, negInf => nan
  | negInf, posInf => nan
  | posInf, _ => posInf
  | _, posInf => posInf
  | negInf, _ => negInf
  | _, negInf => negInf
  | fin a, fin b => fin (a + b)

/-- JavaScript subtraction (`a - b`). -/
def sub : JSNum → JSNum → JSNum
  | nan, _ => nan
  | _, nan => nan
  | posInf, posInf => nan
  | negInf, negInf => nan
  | posInf, _ => posInf
  | _, posInf => negInf
  | negInf, _ => negInf
  | _, negInf => posInf
  | fin a, fin b => fin (a - b)

/-- JavaScript multiplication (`a * b`). Zero times an infinity is NaN. -/
def mul : JSNum → JSNum → JSNum
  | nan, _ => nan
  | _, nan => nan
  | posInf, posInf => posInf
  | posInf, negInf => negInf
  | negInf, posInf => negInf
  | negInf, negInf => posInf
  | posInf, fin q => if 0 < q then posInf else if q < 0 then negInf else nan
  | fin q, posInf => if 0 < q then posInf else if q < 0 then negInf else nan
  | negInf, fin q => if 0 < q then negInf else if q < 0 then posInf else nan
  | fin q, negInf => if 0 < q then negInf else if q < 0 then posInf else nan
  | fin a, fin b => fin (a * b)

/-- JavaScript division (`a / b`); used only for the display-side inverse
conversions `mmToInch` / `mmToFr`. -/
def div : JSNum → JSNum → JSNum
  | nan, _ => nan
  | _, nan => nan
  | posInf, posInf => nan
  | posInf, negInf => nan
  | negInf, posInf => nan
  | negInf, negInf => nan
  | posInf, fin q => if 0 ≤ q then posInf else negInf
  | negInf, fin q => if 0 ≤ q then negInf else posInf
  | fin _, posInf => fin 0
  | fin _, negInf => fin 0
  | fin a, fin b => if b = 0 then (if a = 0 then nan else if 0 < a then posInf else negInf) else fin (a / b)

/-- JavaScript `Math.abs`. -/
def abs : JSNum → JSNum
  | nan => nan
  | posInf => posInf
  | negInf => posInf
  | fin q => fin |q|

/-- JavaScript `a <= b`: false whenever either side is NaN. -/
def le : JSNum → JSNum → Bool
  | nan, _ => false
  | _, nan => false
  | negInf, _ => true
  | _, posInf => true
  | posInf, _ => false
  | _, negInf => false
  | fin a, fin b => decide (a ≤ b)

/-- JavaScript `a < b`: false whenever either side is NaN. -/
def lt : JSNum → JSNum → Bool
  | nan, _ => false
  | _, nan => false
  | negInf, negInf => false
  | negInf, _ => true
  | _, negInf => false
  | posInf, _ => false
  | _, posInf => true
  | fin a, fin b => decide (a < b)

/-- JavaScript `Number.isNaN`. -/
def isNaNb : JSNum → Bool
  | nan => true
  | _ => false

/-- JavaScript `Number.isFinite`. -/
def isFiniteb : JSNum → Bool
  | fin _ => true
  | _ => false

end JSNum

/-- Unit conversion from `src/unnamed/part_001` and `src/app/page.tsx`:
`const inchToMm = (inch: number) => inch * 25.4`. -/
def inchToMm (x : JSNum) : JSNum := JSNum.mul x (JSNum.fin (254 / 10))

/-- Unit conversion: `const frToMm = (fr: number) => fr * 0.33`. -/
def frToMm (x : JSNum) : JSNum := JSNum.mul x (JSNum.fin (33 / 100))

/-- Display-side inverse: `const mmToInch = (mm: number) => mm / 25.4`. -/
def mmToInch (x : JSNum) : JSNum := JSNum.div x (JSNum.fin (254 / 10))

/-- Display-side inverse: `const mmToFr = (mm: number) => mm / 0.33`. -/
def mmToFr (x : JSNum) : JSNum := JSNum.div x (JSNum.fin (33 / 100))

example : inchToMm (JSNum.fin (1 / 10)) = JSNum.fin (127 / 50) := by
  simp [inchToMm, JSNum.mul]; norm_num
example : JSNum.le (JSNum.fin 20) JSNum.nan = false := by simp [JSNum.le]
example : JSNum.add JSNum.posInf (JSNum.fin 3) = JSNum.posInf := by simp [JSNum.add]

/-- JavaScript `String.prototype.trim`, over the character list. -/
def trimChars (cs : List Char) : List Char :=
  ((cs.dropWhile Char.isWhitespace).reverse.dropWhile Char.isWhitespace).reverse

/-- JavaScript `s.trim()`. -/
def jsTrim (s : String) : String := String.mk (trimChars s.toList)

/-- JavaScript `s.toLowerCase()` (ASCII letters; other characters are
unchanged, matching the alphabets that occur in the headers). -/
def jsLower (s : String) : String := String.mk (s.toList.map Char.toLower)

/-- Character-list version of `List.isPrefixOf`, spelled out so concrete
goals reduce by `decide`. -/
def leadsWith : List Char → List Char → Bool
  | [], _ => true
  | _ :: _, [] => false
  | p :: ps, c :: cs => p == c && leadsWith ps cs

/-- Helper for `strIncludes`: does `p` occur at any position of the list? -/
def hasSubAux (p : List Char) : List Char → Bool
  | [] => leadsWith p []
  | c :: cs => leadsWith p (c :: cs) || hasSubAux p cs

/-- JavaScript `s.includes(pat)` (substring containment). -/
def strIncludes (s pat : String) : Bool := hasSubAux pat.toList s.toList

example : strIncludes ("ガイディング") ("ガイ") = true := by decide
example : strIncludes ("unknown-xyz") ("中間") = false := by decide

/-- Numeric value of a digit list (most significant first). -/
def natOfDigits (ds : List Char) : ℕ := ds.foldl (fun a c => a * 10 + (c.toNat - 48)) 0

/-- Exponent part of a JavaScript decimal literal (after the `e`/`E`). -/
def jsExpPart (m : ℚ) (cs : List Char) : Option ℚ :=
  let sd : Bool × List Char :=
    match cs with
    | '+' :: r => (false, r)
    | '-' :: r => (true, r)
    | r => (false, r)
  let ds := sd.2.takeWhile Char.isDigit
  let rest := sd.2.dropWhile Char.isDigit
  if ds.isEmpty || !rest.isEmpty then none
  else some (m * (10 : ℚ) ^ (if sd.1 then -(natOfDigits ds : ℤ) else (natOfDigits ds : ℤ)))

/-- Unsigned decimal literal: digits, an optional fraction, an optional
exponent.  `none` when the characters are not such a literal. -/
def jsNumberCore (cs : List Char) : Option ℚ :=
  let ip := cs.takeWhile Char.isDigit
  let r1 := cs.dropWhile Char.isDigit
  let fpr : List Char × List Char :=
    match r1 with
    | '.' :: rest => (rest.takeWhile Char.isDigit, rest.dropWhile Char.isDigit)
    | _ => ([], r1)
  let fp := fpr.1
  let r2 := fpr.2
  if ip.isEmpty && fp.isEmpty then none
  else
    let m : ℚ := (natOfDigits ip : ℚ) + (natOfDigits fp : ℚ) / 10 ^ fp.length
    match r2 with
    | [] => some m
    | 'e' :: rest => jsExpPart m rest
    | 'E' :: rest => jsExpPart m rest
    | _ => none

/-- Model of JavaScript `Number(string)`: surrounding whitespace is
trimmed, the empty string converts to `0`, signed decimal literals and
`Infinity` are recognised, anything else is NaN.  (Hex/octal/binary
literals are not modelled; no such input occurs in this development.) -/
def jsNumber (s : String) : JSNum :=
  match trimChars s.toList with
  | [] => JSNum.fin 0
  | c :: cs =>
    let sgn : ℚ := if c = '-' then -1 else 1
    let body := if c = '-' || c = '+' then cs else c :: cs
    if body = ("Infinity".toList) then (if c = '-' then JSNum.negInf else JSNum.posInf)
    else
      match jsNumberCore body with
      | some q => JSNum.fin (sgn * q)
      | none => JSNum.nan

example : jsNumber ("") = JSNum.fin 0 := by simp [jsNumber, trimChars]
example : jsNumber ("abc") = JSNum.nan := by simp [jsNumber, trimChars, jsNumberCore]
example : jsNumber ("Infinity") = JSNum.posInf := by simp [jsNumber, trimChars]

/-- Character scan of `parseCSV` (identical in `src/unnamed/part_001`
and `src/app/page.tsx`): arguments are the in-quotes flag, the remaining
input, the pending cell, the pending row, and the rows emitted so far. -/
def csvScan : Bool → List Char → List Char → List (List Char) → List (List (List Char)) → List (List (List Char))
  | _, [], cell, row, rows =>
      if cell.isEmpty && row.isEmpty then rows else rows ++ [row ++ [cell]]
  | true, '"' :: '"' :: rest, cell, row, rows => csvScan true rest (cell ++ ['"']) row rows
  | true, '"' :: rest, cell, row, rows => csvScan false rest cell row rows
  | false, '"' :: rest, cell, row, rows => csvScan true rest cell row rows
  | false, ',' :: rest, cell, row, rows => csvScan false rest [] (row ++ [cell]) rows
  | false, '\r' :: '\n' :: rest, cell, row, rows =>
      csvScan false rest [] []
        (if cell.isEmpty && row.isEmpty then rows else rows ++ [row ++ [cell]])
  | false, '\n' :: rest, cell, row, rows =>
      csvScan false rest [] []
        (if cell.isEmpty && row.isEmpty then rows else rows ++ [row ++ [cell]])
  | false, '\r' :: rest, cell, row, rows =>
      csvScan false rest [] []
        (if cell.isEmpty && row.isEmpty then rows else rows ++ [row ++ [cell]])
  | inQuotes, ch :: rest, cell, row, rows => csvScan inQuotes rest (cell ++ [ch]) row rows

/-- The `parseCSV` function shared verbatim by `src/unnamed/part_001`
and `src/app/page.tsx`: quote-aware character scan, then rows whose
cells are all blank after trimming are dropped. -/
def parseCSV (text : String) : List (List String) :=
  ((csvScan false text.toList [] [] []).map (fun r => r.map String.mk)).filter
    (fun r => r.any (fun c => jsTrim c != ""))

example : parseCSV ("a,b\nc,d") = [["a", "b"], ["c", "d"]] := by decide
example : parseCSV ("a,b\r\n\nc,d\r") = [["a", "b"], ["c", "d"]] := by decide

/-- The `Device` record (identical `type Device` in `src/unnamed/part_001`
and `src/app/page.tsx`).  Optional fields model `field?:`; `category`
holds one of the three literal strings of `type Category`. -/
structure Device where
  id : String
  name : String
  maker : Option String
  category : String
  id_mm : Option JSNum
  od_mm : Option JSNum
  length_cm : Option JSNum
  id_inch : Option JSNum
  od_fr : Option JSNum
  notes : Option String
deriving DecidableEq, Repr

/-- JavaScript optional chaining `d?.f` for an optional device and a
numeric field. -/
def optNum (d : Option Device) (f : Device → Option JSNum) : Option JSNum :=
  match d with
  | some dv => f dv
  | none => none

/-- The measurement guard of every evaluator variant:
`const mmOk = (x?: number) => typeof x === "number" && !Number.isNaN(x) && x > 0`.
Note it rejects NaN and non-positive values but accepts +Infinity. -/
def mmOk : Option JSNum → Bool
  | some v => !(JSNum.isNaNb v) && JSNum.lt (JSNum.fin 0) v
  | none => false

/-- One diameter fit judgment, the pattern shared by `icInGcOK`,
`mcAInIcOK`, `mcBInIcOK` (and page.tsx's `mcInIcOK`):
`mmOk(outer?.id_mm) && mmOk(inner?.od_mm) ? inner.od_mm + clearanceMm <= outer.id_mm : undefined`. -/
def fitOK (idm od : Option JSNum) (clearanceMm : JSNum) : Option Bool :=
  match idm, od with
  | some i, some o =>
      if mmOk (some i) && mmOk (some o) then some (JSNum.le (JSNum.add o clearanceMm) i)
      else none
  | _, _ => none

/-- `const ok20 = (v?: number) => (v !== undefined ? v >= 20 : undefined)`. -/
def ok20 (v : Option JSNum) : Option Bool :=
  match v with
  | some x => some (JSNum.le (JSNum.fin 20) x)
  | none => none

/-- Length difference of the primary part_001 evaluator (line 182):
`const diff = (a?, b?) => (typeof a === "number" && typeof b === "number" ? Math.abs(a - b) : undefined)`.
It gates only on the operands being numbers, not on `mmOk`. -/
def diffLen (a b : Option JSNum) : Option JSNum :=
  match a, b with
  | some x, some y => some (JSNum.abs (JSNum.sub x y))
  | _, _ => none

/-- Length difference of page.tsx and of the second part_001 variant:
`mmOk(a?.length_cm) && mmOk(b?.length_cm) ? Math.abs(a - b) : undefined`. -/
def lenDiffGated (a b : Option JSNum) : Option JSNum :=
  match a, b with
  | some x, some y =>
      if mmOk (some x) && mmOk (some y) then some (JSNum.abs (JSNum.sub x y)) else none
  | _, _ => none

/-- Verdict set of the two four-device evaluators in `src/unnamed/part_001`. -/
structure CompatResult where
  icInGcOK : Option Bool
  mcAInIcOK : Option Bool
  mcBInIcOK : Option Bool
  twoInIcOK : Option Bool
  gcIcDiffCm : Option JSNum
  icMcADiffCm : Option JSNum
  icMcBDiffCm : Option JSNum
  gcIcDiffOK : Option Bool
  icMcADiffOK : Option Bool
  icMcBDiffOK : Option Bool
deriving DecidableEq, Repr

/-- Verdict set of the three-device evaluator in `src/app/page.tsx`. -/
structure CompatResult3 where
  icInGcOK : Option Bool
  mcInIcOK : Option Bool
  gcIcDiffCm : Option JSNum
  icMcDiffCm : Option JSNum
  gcIcDiffOK : Option Bool
  icMcDiffOK : Option Bool
deriving DecidableEq, Repr

namespace Part001

/-- The primary evaluator `useCompatibility` of `src/unnamed/part_001`
(lines 163-200): clearance is a parameter (the page calls it with
`CLEARANCE_MM = 0.0`); the dual-micro check uses
`need = mcA.od_mm + mcB.od_mm + 2 * clearanceMm`; length differences use
the type-only `diff` helper. -/
def useCompatibility (gc ic mcA mcB : Option Device) (clearanceMm : JSNum) : CompatResult :=
  let twoInIcOK : Option Bool :=
    match optNum ic Device.id_mm, optNum mcA Device.od_mm, optNum mcB Device.od_mm with
    | some i, some a, some b =>
        if mmOk (some i) && mmOk (some a) && mmOk (some b) then
          some (JSNum.le (JSNum.add (JSNum.add a b) (JSNum.mul (JSNum.fin 2) clearanceMm)) i)
        else none
    | _, _, _ => none
  let gcIcDiffCm := diffLen (optNum gc Device.length_cm) (optNum ic Device.length_cm)
  let icMcADiffCm := diffLen (optNum ic Device.length_cm) (optNum mcA Device.length_cm)
  let icMcBDiffCm := diffLen (optNum ic Device.length_cm) (optNum mcB Device.length_cm)
  { icInGcOK := fitOK (optNum gc Device.id_mm) (optNum ic Device.od_mm) clearanceMm,
    mcAInIcOK := fitOK (optNum ic Device.id_mm) (optNum mcA Device.od_mm) clearanceMm,
    mcBInIcOK := fitOK (optNum ic Device.id_mm) (optNum mcB Device.od_mm) clearanceMm,
    twoInIcOK := twoInIcOK,
    gcIcDiffCm := gcIcDiffCm,
    icMcADiffCm := icMcADiffCm,
    icMcBDiffCm := icMcBDiffCm,
    gcIcDiffOK := ok20 gcIcDiffCm,
    icMcADiffOK := ok20 icMcADiffCm,
    icMcBDiffOK := ok20 icMcBDiffCm }

/-- The seven judgments aggregated at `src/unnamed/part_001` lines
409-410 (and again at lines 1105-1106), in source order. -/
def verdictList (r : CompatResult) : List (Option Bool) :=
  [r.icInGcOK, r.mcAInIcOK, r.mcBInIcOK, r.twoInIcOK, r.gcIcDiffOK, r.icMcADiffOK, r.icMcBDiffOK]

/-- `const anyIssue = [...].some((v) => v === false)`. -/
def anyIssue (r : CompatResult) : Bool :=
  (verdictList r).any (fun v => decide (v = some false))

/-- `const allGood = [...].every((v) => v === true)`. -/
def allGood (r : CompatResult) : Bool :=
  (verdictList r).all (fun v => decide (v = some true))

end Part001

namespace Part001V2

/-- The second evaluator variant lower in `src/unnamed/part_001`
(lines 755-803): same shape, but the dual-micro check uses
`need = (mcA.od_mm + mcB.od_mm) + 1 * clearanceMm` and the length
differences are gated by `mmOk` rather than by type alone. -/
def useCompatibility (gc ic mcA mcB : Option Device) (clearanceMm : JSNum) : CompatResult :=
  let twoInIcOK : Option Bool :=
    match optNum ic Device.id_mm, optNum mcA Device.od_mm, optNum mcB Device.od_mm with
    | some i, some a, some b =>
        if mmOk (some i) && mmOk (some a) && mmOk (some b) then
          some (JSNum.le (JSNum.add (JSNum.add a b) (JSNum.mul (JSNum.fin 1) clearanceMm)) i)
        else none
    | _, _, _ => none
  let gcIcDiffCm := lenDiffGated (optNum gc Device.length_cm) (optNum ic Device.length_cm)
  let icMcADiffCm := lenDiffGated (optNum ic Device.length_cm) (optNum mcA Device.length_cm)
  let icMcBDiffCm := lenDiffGated (optNum ic Device.length_cm) (optNum mcB Device.length_cm)
  { icInGcOK := fitOK (optNum gc Device.id_mm) (optNum ic Device.od_mm) clearanceMm,
    mcAInIcOK := fitOK (optNum ic Device.id_mm) (optNum mcA Device.od_mm) clearanceMm,
    mcBInIcOK := fitOK (optNum ic Device.id_mm) (optNum mcB Device.od_mm) clearanceMm,
    twoInIcOK := twoInIcOK,
    gcIcDiffCm := gcIcDiffCm,
    icMcADiffCm := icMcADiffCm,
    icMcBDiffCm := icMcBDiffCm,
    gcIcDiffOK := ok20 gcIcDiffCm,
    icMcADiffOK := ok20 icMcADiffCm,
    icMcBDiffOK := ok20 icMcBDiffCm }

end Part001V2

namespace PageTsx

/-- The three-device evaluator `useCompatibility` of `src/app/page.tsx`
(lines 210-250): one microcatheter, no dual-micro check, length
differences gated by `mmOk`. -/
def useCompatibility (gc ic mc : Option Device) (clearanceMm : JSNum) : CompatResult3 :=
  let gcIcDiffCm := lenDiffGated (optNum gc Device.length_cm) (optNum ic Device.length_cm)
  let icMcDiffCm := lenDiffGated (optNum ic Device.length_cm) (optNum mc Device.length_cm)
  { icInGcOK := fitOK (optNum gc Device.id_mm) (optNum ic Device.od_mm) clearanceMm,
    mcInIcOK := fitOK (optNum ic Device.id_mm) (optNum mc Device.od_mm) clearanceMm,
    gcIcDiffCm := gcIcDiffCm,
    icMcDiffCm := icMcDiffCm,
    gcIcDiffOK := ok20 gcIcDiffCm,
    icMcDiffOK := ok20 icMcDiffCm }

end PageTsx

namespace Part001

/-- `function toNumber(v?: string)` (`src/unnamed/part_001` lines 86-90):
`Number(String(v).trim())` kept only when `Number.isFinite`.  Note that
`Number("")` is `0`, so a blank cell yields `0` rather than `undefined`. -/
def toNumber : Option String → Option JSNum
  | none => none
  | some v =>
      match jsNumber (jsTrim v) with
      | JSNum.fin q => some (JSNum.fin q)
      | _ => none

/-- `normalizeHeader(h) = h.trim().toLowerCase()`. -/
def normalizeHeader (h : String) : String := jsLower (jsTrim h)

/-- The `col` helper of the primary `csvToDevices`: index of the first
header cell equal to one of the normalized aliases; `none` models `-1`. -/
def col (header : List String) (names : List String) : Option ℕ :=
  header.findIdx? (fun h => (names.map normalizeHeader).contains h)

/-- Cell of a row at an optional column index (`undefined` when the
column is absent or the row is short). -/
def cellAt (row : List String) (idx : Option ℕ) : Option String :=
  idx.bind (fun i => row.get? i)

/-- Message of the TypeError the source throws when `catRaw` is
`undefined` and `catRaw.includes(...)` is called on it
(`src/unnamed/part_001` lines 126-128).  The exact runtime message text
is host-dependent; the model only needs it distinct from the "empty
data" message. -/
def catRawTypeError : String := "TypeError: catRaw is undefined"

/-- Row-to-device mapping of the primary `csvToDevices`
(`src/unnamed/part_001` lines 118-158).  `Except.ok none` models
`continue` (row without a name); `Except.error` models the TypeError the
source throws when the row is named but shorter than the category
column: `(idxCat >= 0 ? row[idxCat] : "マイクロ")?.trim()` is then
`undefined`, and `catRaw.includes("ガイ")` faults. -/
def mkDevice (header : List String) (row : List String) : Except String (Option Device) :=
  let nameOpt := (cellAt row (col header [("name"), ("名称"), ("製品名")])).map jsTrim
  let nameOpt := match col header [("name"), ("名称"), ("製品名")] with
    | some _ => nameOpt
    | none => some (jsTrim (""))
  match nameOpt with
  | none => Except.ok none
  | some name =>
    if name = "" then Except.ok none
    else
      match (match col header [("category"), ("カテゴリ"), ("カテゴリー")] with
        | some i => row.get? i
        | none => some ("マイクロ")).map jsTrim with
      | none => Except.error catRawTypeError
      | some catRaw =>
      let category :=
        if strIncludes catRaw ("ガイ") then ("ガイディング")
        else if strIncludes catRaw ("中間") || strIncludes (jsLower catRaw) ("inter") then ("中間")
        else ("マイクロ")
      let maker := (cellAt row (col header [("maker"), ("メーカー"), ("company")])).map jsTrim
      let idMm := toNumber (cellAt row (col header [("id_mm"), ("内径_mm")]))
      let odMm := toNumber (cellAt row (col header [("od_mm"), ("外径_mm")]))
      let idIn := toNumber (cellAt row (col header [("id_inch"), ("内径_inch")]))
      let odFr := toNumber (cellAt row (col header [("od_fr"), ("外径_fr")]))
      let lengthCm := toNumber (cellAt row (col header [("length_cm"), ("長さ_cm"), ("ワーキング長_cm")]))
      let notes := (cellAt row (col header [("notes"), ("備考")])).map jsTrim
      let idStr :=
        match (cellAt row (col header [("id"), ("device_id")])).map jsTrim with
        | some t => if t = "" then category ++ "::" ++ name else t
        | none => category ++ "::" ++ name
      let id_mm := match idMm with
        | some v => some v
        | none => idIn.map inchToMm
      let od_mm := match odMm with
        | some v => some v
        | none => odFr.map frToMm
      Except.ok (some
        { id := idStr, name := name, maker := maker, category := category,
          id_mm := id_mm, od_mm := od_mm, length_cm := lengthCm,
          id_inch := idIn, od_fr := odFr, notes := notes })

/-- The data-row loop of the primary `csvToDevices`: rows processed left
to right, skipped rows dropped, and a thrown TypeError aborts the whole
conversion (the exception propagates out of the `for` loop). -/
def rowLoop (header : List String) : List (List String) → Except String (List Device)
  | [] => Except.ok []
  | row :: rows =>
      match mkDevice header row with
      | Except.error e => Except.error e
      | Except.ok none => rowLoop header rows
      | Except.ok (some d) => (rowLoop header rows).map (fun ds => d :: ds)

/-- The primary `csvToDevices` (`src/unnamed/part_001` lines 95-160):
fewer than two parsed rows throws the "no data rows" error; rows without
a name are skipped; a named row shorter than the category column throws
a TypeError. -/
def csvToDevices (text : String) : Except String (List Device) :=
  match parseCSV text with
  | [] => Except.error ("CSVにデータ行がありません")
  | [_] => Except.error ("CSVにデータ行がありません")
  | headerRow :: r1 :: rest =>
      rowLoop (headerRow.map normalizeHeader) (r1 :: rest)

end Part001

/-- Insertion-ordered model of a JavaScript `Map<string, Device>`:
`set` overwrites the first entry with the key in place, otherwise
appends a new entry at the end. -/
def mapSet (m : List (String × Device)) (k : String) (v : Device) : List (String × Device) :=
  match m with
  | [] => [(k, v)]
  | (k0, v0) :: rest => if k0 = k then (k0, v) :: rest else (k0, v0) :: mapSet rest k v

/-- Insert every device of a list into the map, keyed by `key`. -/
def insAll (key : Device → String) (m : List (String × Device)) (ds : List Device) : List (String × Device) :=
  ds.foldl (fun acc d => mapSet acc (key d) d) m

/-- The device-store merge shape shared by `handleCsvImport` in
`src/unnamed/part_001` and by `handleCsvImport` / `fetchCSV` in
`src/app/page.tsx`: a fresh `Map`, existing records inserted first,
incoming records second, result is the map's values in insertion
order. -/
def mergeRun (key : Device → String) (prev incoming : List Device) : List Device :=
  (insAll key (insAll key [] prev) incoming).map Prod.snd

namespace Part001

/-- Store key of the part_001 merge:
`d.id || `${d.category}::${d.name}``. -/
def mergeKey (d : Device) : String :=
  if d.id = "" then d.category ++ "::" ++ d.name else d.id

/-- The merge performed by `handleCsvImport` (`src/unnamed/part_001`
lines 419-424). -/
def mergeStore (prev incoming : List Device) : List Device :=
  mergeRun mergeKey prev incoming

end Part001

/-- Cell of a row at an optional column index (`undefined` when the
column is absent or the row is short). -/
def cellAtIdx (row : List String) (idx : Option ℕ) : Option String :=
  idx.bind (fun i => row.get? i)

namespace PageTsx

/-- Store key of the page.tsx merge (`handleCsvImport` lines 449-457 and
`fetchCSV` lines 403-411): always `${d.category}::${d.name}`, the `id`
field is not consulted. -/
def pageKey (d : Device) : String := d.category ++ "::" ++ d.name

/-- The merge performed by `handleCsvImport` / `fetchCSV` in
`src/app/page.tsx`. -/
def mergeStore (prev incoming : List Device) : List Device :=
  mergeRun pageKey prev incoming

/-- Column lookup of page.tsx's `csvToDevices`:
`header.findIndex((h) => names.includes(h))`. -/
def colIdx (header : List String) (names : List String) : Option ℕ :=
  header.findIdx? (fun h => names.contains h)

/-- JavaScript truthiness of an optional string cell. -/
def truthy : Option String → Bool
  | some s => s != ""
  | none => false

/-- Row-to-device mapping of page.tsx's `csvToDevices` (lines 96-135);
the first component is the table row index `i` used for the synthetic id
`csv-${i}`. -/
def mkDevice (header : List String) (ir : ℕ × List String) : Option Device :=
  let row := ir.2
  let nameI := colIdx header [("name"), ("名称"), ("製品名")]
  let nameOpt := match nameI with
    | some j => (row.get? j).map jsTrim
    | none => some (jsTrim (""))
  match nameOpt with
  | none => none
  | some name =>
    if name = "" then none
    else
      let catRaw := match colIdx header [("category"), ("カテゴリ")] with
        | some j => (row.get? j).getD ("")
        | none => ("")
      let category :=
        if strIncludes catRaw ("ガイ") then ("ガイディング")
        else if strIncludes catRaw ("中間") then ("中間")
        else ("マイクロ")
      let cellIdMm := cellAtIdx row (colIdx header [("id_mm"), ("内径_mm")])
      let cellIdIn := cellAtIdx row (colIdx header [("id_inch"), ("内径_inch")])
      let cellOdMm := cellAtIdx row (colIdx header [("od_mm"), ("外径_mm")])
      let cellOdFr := cellAtIdx row (colIdx header [("od_fr"), ("外径_fr")])
      let cellLen := cellAtIdx row (colIdx header [("length_cm"), ("長さ_cm")])
      let id_mm :=
        if truthy cellIdMm then some (jsNumber (cellIdMm.getD ("")))
        else if truthy cellIdIn then some (inchToMm (jsNumber (cellIdIn.getD (""))))
        else none
      let od_mm :=
        if truthy cellOdMm then some (jsNumber (cellOdMm.getD ("")))
        else if truthy cellOdFr then some (frToMm (jsNumber (cellOdFr.getD (""))))
        else none
      let length_cm := if truthy cellLen then some (jsNumber (cellLen.getD (""))) else none
      some { id := ("csv-") ++ toString ir.1, name := name,
             maker := (colIdx header [("maker"), ("メーカー")]).bind (fun j => row.get? j),
             category := category,
             id_mm := id_mm, od_mm := od_mm, length_cm := length_cm,
             id_inch := none, od_fr := none, notes := none }

/-- page.tsx's `csvToDevices` (lines 96-135): fewer than two parsed rows
returns the empty list (no error); rows without a name are skipped. -/
def csvToDevices (text : String) : List Device :=
  match parseCSV text with
  | headerRow :: r1 :: rest =>
      let header := headerRow.map (fun h => jsLower (jsTrim h))
      ((r1 :: rest).enumFrom 1).filterMap (mkDevice header)
  | _ => []

end PageTsx

/-! Association-map lemmas used to verify the device-store merge. -/

/-- Keys of the map, in insertion order. -/
def keysOf (m : List (String × Device)) : List String := m.map Prod.fst

/-- First (and, for distinct keys, only) value stored at a key —
`Map.prototype.get`. -/
def assocFind (m : List (String × Device)) (k : String) : Option Device :=
  match m with
  | [] => none
  | (k0, v0) :: rest => if k0 = k then some v0 else assocFind rest k

/-- Last element of the list whose key is `j` (`none` when there is
none): the value a sequence of `Map.set` calls leaves at `j`. -/
def lastKeyedAux (key : Device → String) (j : String) : Option Device → List Device → Option Device
  | acc, [] => acc
  | acc, d :: ds => lastKeyedAux key j (if key d = j then some d else acc) ds

/-- Last device of `ds` whose key is `j`. -/
def lastKeyed (key : Device → String) (j : String) (ds : List Device) : Option Device :=
  lastKeyedAux key j none ds

theorem assocFind_mapSet (m : List (String × Device)) (k : String) (v : Device) (j : String) :
    assocFind (mapSet m k v) j = if k = j then some v else assocFind m j := by
  induction m with
  | nil => simp [mapSet, assocFind]
  | cons p rest ih =>
      obtain ⟨k0, v0⟩ := p
      by_cases hk : k0 = k
      · subst hk
        by_cases hj : k0 = j
        · subst hj; simp [mapSet, assocFind]
        · simp [mapSet, assocFind, hj]
      · by_cases hj : k0 = j
        · subst hj
          have hkj : ¬ k = k0 := fun h => hk h.symm
          simp [mapSet, assocFind, hk, hkj]
        · simp [mapSet, assocFind, hk, hj, ih]

theorem keysOf_mapSet (m : List (String × Device)) (k : String) (v : Device) :
    keysOf (mapSet m k v) = if k ∈ keysOf m then keysOf m else keysOf m ++ [k] := by
  induction m with
  | nil => simp [mapSet, keysOf]
  | cons p rest ih =>
      obtain ⟨k0, v0⟩ := p
      by_cases hk : k0 = k
      · subst hk; simp [mapSet, keysOf]
      · have hk2 : ¬ k = k0 := fun h => hk h.symm
        simp only [mapSet, if_neg hk, keysOf, List.map_cons] at ih ⊢
        rw [ih]
        by_cases hmem : k ∈ List.map Prod.fst rest
        · simp [hmem, hk2]
        · simp [hmem, hk2]

theorem mem_of_mem_mapSet (m : List (String × Device)) (k : String) (v : Device)
    (p : String × Device) (hp : p ∈ mapSet m k v) : p ∈ m ∨ p = (k, v) := by
  induction m with
  | nil =>
      simp [mapSet] at hp
      exact Or.inr hp
  | cons q rest ih =>
      obtain ⟨k0, v0⟩ := q
      by_cases hk : k0 = k
      · subst hk
        simp only [mapSet, if_pos rfl] at hp
        rcases List.mem_cons.mp hp with h | h
        · exact Or.inr h
        · exact Or.inl (List.mem_cons_of_mem _ h)
      · simp only [mapSet, if_neg hk] at hp
        rcases List.mem_cons.mp hp with h | h
        · exact Or.inl (by simp [h])
        · rcases ih h with h2 | h2
          · exact Or.inl (List.mem_cons_of_mem _ h2)
          · exact Or.inr h2

theorem assocFind_eq_none (m : List (String × Device)) (j : String) (h : j ∉ keysOf m) :
    assocFind m j = none := by
  induction m with
  | nil => simp [assocFind]
  | cons p rest ih =>
      obtain ⟨k0, v0⟩ := p
      simp only [keysOf, List.map_cons, List.mem_cons, not_or] at h
      have h1 : ¬ k0 = j := fun hh => h.1 hh.symm
      simp only [assocFind, if_neg h1]
      exact ih (by simpa [keysOf] using h.2)

/-- A map is canonical for `key` when every entry stores a device under
its own key and the keys are distinct — the invariant of every map the
merge code builds. -/
def CanonMap (key : Device → String) (m : List (String × Device)) : Prop :=
  (∀ p ∈ m, p.1 = key p.2) ∧ (keysOf m).Nodup

theorem canonMap_mapSet (key : Device → String) (m : List (String × Device)) (d : Device)
    (hc : CanonMap key m) : CanonMap key (mapSet m (key d) d) := by
  obtain ⟨he, hn⟩ := hc
  constructor
  · intro p hp
    rcases mem_of_mem_mapSet m (key d) d p hp with h | h
    · exact he p h
    · simp [h]
  · rw [keysOf_mapSet]
    by_cases hmem : key d ∈ keysOf m
    · simpa [hmem] using hn
    · rw [if_neg hmem]
      refine List.Nodup.append hn (List.nodup_singleton _) ?_
      intro x hx hx2
      simp at hx2
      subst hx2
      exact hmem hx

theorem canonMap_insAll (key : Device → String) (m : List (String × Device)) (ds : List Device)
    (hc : CanonMap key m) : CanonMap key (insAll key m ds) := by
  induction ds generalizing m with
  | nil => simpa [insAll] using hc
  | cons d ds ih =>
      simpa [insAll] using ih (mapSet m (key d) d) (canonMap_mapSet key m d hc)

theorem canonMap_nil (key : Device → String) : CanonMap key [] := by
  constructor
  · intro p hp; simp at hp
  · simp [keysOf]

theorem insAll_cons_of_ne (key : Device → String) (k : String) (v : Device)
    (m : List (String × Device)) (ds : List Device) (h : ∀ d ∈ ds, key d ≠ k) :
    insAll key ((k, v) :: m) ds = (k, v) :: insAll key m ds := by
  induction ds generalizing m with
  | nil => simp [insAll]
  | cons d ds ih =>
      have hd : key d ≠ k := h d (by simp)
      have hk : ¬ k = key d := fun hh => hd hh.symm
      simp only [insAll, List.foldl_cons]
      rw [show mapSet ((k, v) :: m) (key d) d = (k, v) :: mapSet m (key d) d by
        simp [mapSet, hk]]
      exact ih (mapSet m (key d) d) (fun d2 h2 => h d2 (by simp [h2]))

/-- Rebuilding a canonical map from its values reproduces it: this is
what lets the merge be repeated on its own output. -/
theorem insAll_rebuild (key : Device → String) (m : List (String × Device))
    (hc : CanonMap key m) : insAll key [] (m.map Prod.snd) = m := by
  induction m with
  | nil => simp [insAll]
  | cons p rest ih =>
      obtain ⟨k, v⟩ := p
      obtain ⟨he, hn⟩ := hc
      have hkv : k = key v := he (k, v) (by simp)
      have hrest : CanonMap key rest := by
        constructor
        · intro q hq; exact he q (List.mem_cons_of_mem _ hq)
        · simp [keysOf] at hn ⊢; exact hn.2
      have hknot : k ∉ keysOf rest := by
        simp [keysOf] at hn ⊢; exact hn.1
      have hne : ∀ d ∈ rest.map Prod.snd, key d ≠ k := by
        intro d hd
        rcases List.mem_map.mp hd with ⟨q, hq, hqd⟩
        have : q.1 = key d := by rw [← hqd]; exact he q (List.mem_cons_of_mem _ hq)
        intro hcon
        apply hknot
        rw [← hcon, ← this]
        exact List.mem_map.mpr ⟨q, hq, rfl⟩
      calc insAll key [] ((k, v) :: rest |>.map Prod.snd)
          = insAll key [(key v, v)] (rest.map Prod.snd) := by simp [insAll, mapSet]
        _ = (key v, v) :: insAll key [] (rest.map Prod.snd) := by
              apply insAll_cons_of_ne
              intro d hd
              rw [hkv] at hne
              exact hne d hd
        _ = (k, v) :: rest := by rw [ih hrest, hkv]

theorem keysOf_insAll_of_mem (key : Device → String) (m : List (String × Device))
    (ds : List Device) (h : ∀ d ∈ ds, key d ∈ keysOf m) :
    keysOf (insAll key m ds) = keysOf m := by
  induction ds generalizing m with
  | nil => simp [insAll]
  | cons d ds ih =>
      have hkeys : keysOf (mapSet m (key d) d) = keysOf m := by
        rw [keysOf_mapSet, if_pos (h d (by simp))]
      simp only [insAll, List.foldl_cons]
      rw [show (List.foldl (fun acc d => mapSet acc (key d) d) (mapSet m (key d) d) ds)
            = insAll key (mapSet m (key d) d) ds from rfl]
      rw [ih (mapSet m (key d) d) (by rw [hkeys]; intro d2 h2; exact h d2 (by simp [h2]))]
      exact hkeys

theorem mem_keysOf_insAll_of_mem (key : Device → String) (m : List (String × Device))
    (ds : List Device) (k : String) (h : k ∈ keysOf m) : k ∈ keysOf (insAll key m ds) := by
  induction ds generalizing m with
  | nil => simpa [insAll] using h
  | cons d ds ih =>
      simp only [insAll, List.foldl_cons]
      apply ih
      rw [keysOf_mapSet]
      by_cases hmem : key d ∈ keysOf m
      · simpa [hmem] using h
      · rw [if_neg hmem]; exact List.mem_append_left _ h

theorem keys_subset_insAll (key : Device → String) (m : List (String × Device))
    (ds : List Device) : ∀ d ∈ ds, key d ∈ keysOf (insAll key m ds) := by
  induction ds generalizing m with
  | nil => intro d hd; simp at hd
  | cons d0 ds ih =>
      intro d hd
      rcases List.mem_cons.mp hd with h | h
      · subst h
        simp only [insAll, List.foldl_cons]
        apply mem_keysOf_insAll_of_mem
        rw [keysOf_mapSet]
        by_cases hmem : key d ∈ keysOf m
        · rw [if_pos hmem]; exact hmem
        · rw [if_neg hmem]; simp
      · simpa [insAll] using ih (mapSet m (key d0) d0) d h

theorem lastKeyedAux_elim (key : Device → String) (j : String) (ds : List Device)
    (acc : Option Device) :
    lastKeyedAux key j acc ds = (lastKeyed key j ds).elim acc some := by
  induction ds generalizing acc with
  | nil => simp [lastKeyedAux, lastKeyed]
  | cons d ds ih =>
      simp only [lastKeyedAux, lastKeyed]
      cases h : lastKeyed key j ds with
      | some e =>
          rw [ih (if key d = j then some d else acc),
            ih (if key d = j then some d else none), h]
          simp
      | none =>
          rw [ih (if key d = j then some d else acc),
            ih (if key d = j then some d else none), h]
          by_cases hd : key d = j
          · simp [hd]
          · simp [hd]

theorem assocFind_insAll (key : Device → String) (m : List (String × Device))
    (ds : List Device) (j : String) :
    assocFind (insAll key m ds) j = (lastKeyed key j ds).elim (assocFind m j) some := by
  induction ds generalizing m with
  | nil => simp [insAll, lastKeyed, lastKeyedAux]
  | cons d ds ih =>
      simp only [insAll, List.foldl_cons] at ih ⊢
      rw [ih (mapSet m (key d) d)]
      have hlast : lastKeyed key j (d :: ds)
          = (lastKeyed key j ds).elim (if key d = j then some d else none) some := by
        simp only [lastKeyed, lastKeyedAux]
        exact lastKeyedAux_elim key j ds _
      rw [hlast, assocFind_mapSet]
      cases h : lastKeyed key j ds with
      | some e => simp
      | none =>
          by_cases hd : key d = j
          · simp [hd]
          · have hd2 : ¬ j = key d := fun hh => hd hh.symm
            simp [hd, hd2]

theorem assoc_ext (m : List (String × Device)) : ∀ (n : List (String × Device)),
    keysOf m = keysOf n → (keysOf m).Nodup →
    (∀ j, assocFind m j = assocFind n j) → m = n := by
  induction m with
  | nil =>
      intro n hk _ _
      have : n.map Prod.fst = [] := by simpa [keysOf] using hk.symm
      simpa using List.map_eq_nil_iff.mp this
  | cons p rest ih =>
      intro n hk hnd hf
      obtain ⟨k, v⟩ := p
      cases n with
      | nil => simp [keysOf] at hk
      | cons q n2 =>
          obtain ⟨k2, w⟩ := q
          simp only [keysOf, List.map_cons, List.cons.injEq] at hk
          obtain ⟨hkk, hktail⟩ := hk
          subst hkk
          have hvw : v = w := by
            have h1 := hf k
            simpa [assocFind] using h1
          have hnotrest : k ∉ keysOf rest := by
            simp only [keysOf, List.map_cons] at hnd
            exact (List.nodup_cons.mp hnd).1
          have hnotn2 : k ∉ keysOf n2 := by
            have heq : keysOf rest = keysOf n2 := by simpa [keysOf] using hktail
            rw [← heq]
            exact hnotrest
          have htail : ∀ j, assocFind rest j = assocFind n2 j := by
            intro j
            by_cases hj : k = j
            · subst hj
              rw [assocFind_eq_none rest k hnotrest, assocFind_eq_none n2 k hnotn2]
            · have h1 := hf j
              simpa [assocFind, hj] using h1
          have hnd2 : (keysOf rest).Nodup := by
            simp only [keysOf, List.map_cons] at hnd
            exact (List.nodup_cons.mp hnd).2
          rw [hvw, ih n2 (by simpa [keysOf] using hktail) hnd2 htail]

theorem mem_of_assocFind (m : List (String × Device)) (j : String) (d : Device)
    (h : assocFind m j = some d) : (j, d) ∈ m := by
  induction m with
  | nil => simp [assocFind] at h
  | cons p rest ih =>
      obtain ⟨k0, v0⟩ := p
      by_cases hj : k0 = j
      · subst hj
        simp [assocFind] at h
        simp [h]
      · simp only [assocFind, if_neg hj] at h
        exact List.mem_cons_of_mem _ (ih h)

/-- Re-inserting a list of devices whose keys are all present and whose
last-per-key values are already stored leaves the map unchanged. -/
theorem insAll_stable (key : Device → String) (m : List (String × Device)) (ds : List Device)
    (hnd : (keysOf m).Nodup) (hkeys : ∀ d ∈ ds, key d ∈ keysOf m)
    (hfind : ∀ j d, lastKeyed key j ds = some d → assocFind m j = some d) :
    insAll key m ds = m := by
  apply assoc_ext
  · exact keysOf_insAll_of_mem key m ds hkeys
  · rw [keysOf_insAll_of_mem key m ds hkeys]; exact hnd
  · intro j
    rw [assocFind_insAll]
    cases h : lastKeyed key j ds with
    | none => simp
    | some d => simpa using (hfind j d h).symm

/-- Lookup in the merged store: the value at key `j` is the last
incoming device with key `j`; when there is none, the last existing
device with key `j`; when neither exists, absent. -/
theorem mergeRun_find (key : Device → String) (prev inc : List Device) (j : String) :
    assocFind (insAll key (insAll key [] prev) inc) j
      = (lastKeyed key j inc).elim ((lastKeyed key j prev).elim none some) some := by
  rw [assocFind_insAll, assocFind_insAll]
  simp [assocFind]

theorem canonMap_merge (key : Device → String) (prev inc : List Device) :
    CanonMap key (insAll key (insAll key [] prev) inc) :=
  canonMap_insAll key _ inc (canonMap_insAll key [] prev (canonMap_nil key))

/-- The merge is idempotent: repeating it with the same incoming list on
its own output changes nothing. -/
theorem mergeRun_idem (key : Device → String) (prev inc : List Device) :
    mergeRun key (mergeRun key prev inc) inc = mergeRun key prev inc := by
  have hcanon := canonMap_merge key prev inc
  have hrebuild := insAll_rebuild key _ hcanon
  have hstable : insAll key (insAll key (insAll key [] prev) inc) inc
      = insAll key (insAll key [] prev) inc := by
    apply insAll_stable
    · exact hcanon.2
    · exact keys_subset_insAll key _ inc
    · intro j d h
      rw [mergeRun_find]
      simp [h]
  show (insAll key (insAll key []
      ((insAll key (insAll key [] prev) inc).map Prod.snd)) inc).map Prod.snd
      = (insAll key (insAll key [] prev) inc).map Prod.snd
  rw [hrebuild, hstable]

/-! Projection lemmas unfolding the evaluator records, shared by the
claim theorems below. -/

theorem part001_icInGcOK (gc ic mcA mcB : Option Device) (c : JSNum) :
    (Part001.useCompatibility gc ic mcA mcB c).icInGcOK
      = fitOK (optNum gc Device.id_mm) (optNum ic Device.od_mm) c := rfl

theorem part001_gcIcDiffCm (gc ic mcA mcB : Option Device) (c : JSNum) :
    (Part001.useCompatibility gc ic mcA mcB c).gcIcDiffCm
      = diffLen (optNum gc Device.length_cm) (optNum ic Device.length_cm) := rfl

theorem part001_icMcADiffCm (gc ic mcA mcB : Option Device) (c : JSNum) :
    (Part001.useCompatibility gc ic mcA mcB c).icMcADiffCm
      = diffLen (optNum ic Device.length_cm) (optNum mcA Device.length_cm) := rfl

theorem part001_icMcBDiffCm (gc ic mcA mcB : Option Device) (c : JSNum) :
    (Part001.useCompatibility gc ic mcA mcB c).icMcBDiffCm
      = diffLen (optNum ic Device.length_cm) (optNum mcB Device.length_cm) := rfl

theorem part001_gcIcDiffOK (gc ic mcA mcB : Option Device) (c : JSNum) :
    (Part001.useCompatibility gc ic mcA mcB c).gcIcDiffOK
      = ok20 (diffLen (optNum gc Device.length_cm) (optNum ic Device.length_cm)) := rfl

theorem part001_icMcADiffOK (gc ic mcA mcB : Option Device) (c : JSNum) :
    (Part001.useCompatibility gc ic mcA mcB c).icMcADiffOK
      = ok20 (diffLen (optNum ic Device.length_cm) (optNum mcA Device.length_cm)) := rfl

theorem part001_icMcBDiffOK (gc ic mcA mcB : Option Device) (c : JSNum) :
    (Part001.useCompatibility gc ic mcA mcB c).icMcBDiffOK
      = ok20 (diffLen (optNum ic Device.length_cm) (optNum mcB Device.length_cm)) := rfl

theorem pageTsx_gcIcDiffCm (gc ic mc : Option Device) (c : JSNum) :
    (PageTsx.useCompatibility gc ic mc c).gcIcDiffCm
      = lenDiffGated (optNum gc Device.length_cm) (optNum ic Device.length_cm) := rfl

theorem pageTsx_gcIcDiffOK (gc ic mc : Option Device) (c : JSNum) :
    (PageTsx.useCompatibility gc ic mc c).gcIcDiffOK
      = ok20 (lenDiffGated (optNum gc Device.length_cm) (optNum ic Device.length_cm)) := rfl

theorem fitOK_eq_none_iff (idm od : Option JSNum) (c : JSNum) :
    fitOK idm od c = none ↔ ¬(mmOk idm = true ∧ mmOk od = true) := by
  cases idm with
  | none => simp [fitOK, mmOk]
  | some i =>
      cases od with
      | none => simp [fitOK, mmOk]
      | some o =>
          by_cases h1 : mmOk (some i) = true
          · by_cases h2 : mmOk (some o) = true
            · simp [fitOK, h1, h2]
            · simp [fitOK, h1, h2]
          · simp [fitOK, h1]

theorem fitOK_computed (i o c : JSNum) (h1 : mmOk (some i) = true) (h2 : mmOk (some o) = true) :
    fitOK (some i) (some o) c = some (JSNum.le (JSNum.add o c) i) := by
  simp [fitOK, h1, h2]

/-! Claim theorems. -/

/-- Claim C1, counterexample to the statement as given: the claim says
`intermediateFitsInGuiding` is undefined — never false — whenever a
measurement is non-finite, but the guard `mmOk` only rejects NaN, so a
present `+Infinity` measurement is accepted: an infinite guiding inner
diameter yields the computed verdict `true` (not undefined), and an
infinite intermediate outer diameter yields the confident verdict
`false`. -/
theorem c1_counterexample :
    (Part001.useCompatibility
      (some (Device.mk ("g") ("G") none ("ガイディング") (some JSNum.posInf) none none none none none))
      (some (Device.mk ("i") ("I") none ("中間") none (some (JSNum.fin 1)) none none none none))
      none none (JSNum.fin 0)).icInGcOK = some true
    ∧ (Part001.useCompatibility
      (some (Device.mk ("g") ("G") none ("ガイディング") (some (JSNum.fin 2)) none none none none none))
      (some (Device.mk ("i") ("I") none ("中間") none (some JSNum.posInf) none none none none))
      none none (JSNum.fin 0)).icInGcOK = some false := by
  constructor
  · rw [part001_icInGcOK]
    simp [optNum, fitOK, mmOk, JSNum.isNaNb, JSNum.lt, JSNum.add, JSNum.le]
  · rw [part001_icInGcOK]
    simp [optNum, fitOK, mmOk, JSNum.isNaNb, JSNum.lt, JSNum.add, JSNum.le]

/-- Claim C1 (amended): for every optional guiding device, optional
intermediate device and clearance, `icInGcOK` equals the truth of
`intermediate.od_mm + clearance_mm <= guiding.id_mm` (under JavaScript
comparison) whenever both measurements pass the guard `mmOk` (present,
not NaN, strictly greater than zero), and is undefined — never false —
exactly when either measurement is absent, NaN, or not strictly
positive.  (The claim's "finite" is weakened to "non-NaN": a present
positive infinity is treated as a valid measurement, see
`c1_counterexample`.) -/
theorem c1_theorem (gc ic mcA mcB : Option Device) (c : JSNum) :
    ((Part001.useCompatibility gc ic mcA mcB c).icInGcOK = none
      ↔ ¬(mmOk (optNum gc Device.id_mm) = true ∧ mmOk (optNum ic Device.od_mm) = true))
    ∧ (∀ g o, optNum gc Device.id_mm = some g → optNum ic Device.od_mm = some o →
        mmOk (some g) = true → mmOk (some o) = true →
        (Part001.useCompatibility gc ic mcA mcB c).icInGcOK
          = some (JSNum.le (JSNum.add o c) g)) := by
  constructor
  · rw [part001_icInGcOK]
    exact fitOK_eq_none_iff _ _ _
  · intro g o hg ho h1 h2
    rw [part001_icInGcOK, hg, ho]
    exact fitOK_computed g o c h1 h2

/-- Witness for C1 at the spec's own example (testable property 7):
intermediate od 1.82 mm, guiding id 2.24 mm, clearance 0.10 mm gives a
computed `true` verdict, and with clearance 0.5 mm a computed `false`. -/
theorem c1_witness :
    (Part001.useCompatibility
      (some (Device.mk ("g") ("G") none ("ガイディング") (some (JSNum.fin (224 / 100))) none none none none none))
      (some (Device.mk ("i") ("I") none ("中間") none (some (JSNum.fin (182 / 100))) none none none none))
      none none (JSNum.fin (10 / 100))).icInGcOK = some true
    ∧ (Part001.useCompatibility
      (some (Device.mk ("g") ("G") none ("ガイディング") (some (JSNum.fin (224 / 100))) none none none none none))
      (some (Device.mk ("i") ("I") none ("中間") none (some (JSNum.fin (182 / 100))) none none none none))
      none none (JSNum.fin (50 / 100))).icInGcOK = some false := by
  constructor
  · have h := (c1_theorem
      (some (Device.mk ("g") ("G") none ("ガイディング") (some (JSNum.fin (224 / 100))) none none none none none))
      (some (Device.mk ("i") ("I") none ("中間") none (some (JSNum.fin (182 / 100))) none none none none))
      none none (JSNum.fin (10 / 100))).2 (JSNum.fin (224 / 100)) (JSNum.fin (182 / 100))
      rfl rfl (by simp [mmOk, JSNum.isNaNb, JSNum.lt])
      (by simp [mmOk, JSNum.isNaNb, JSNum.lt])
    rw [h]
    simp [JSNum.add, JSNum.le]
    norm_num
  · have h := (c1_theorem
      (some (Device.mk ("g") ("G") none ("ガイディング") (some (JSNum.fin (224 / 100))) none none none none none))
      (some (Device.mk ("i") ("I") none ("中間") none (some (JSNum.fin (182 / 100))) none none none none))
      none none (JSNum.fin (50 / 100))).2 (JSNum.fin (224 / 100)) (JSNum.fin (182 / 100))
      rfl rfl (by simp [mmOk, JSNum.isNaNb, JSNum.lt])
      (by simp [mmOk, JSNum.isNaNb, JSNum.lt])
    rw [h]
    simp [JSNum.add, JSNum.le]
    norm_num

/-- Claim C2, counterexample to the statement as given: in page.tsx's
evaluator (one of the claim's cited sources) a present but zero length
is rejected by `mmOk`, so with guiding length 0 cm and intermediate
length 30 cm — both present, absolute difference 30 ≥ 20 — the delta and
the margin judgment are undefined instead of the judgment being true. -/
theorem c2_counterexample :
    (PageTsx.useCompatibility
      (some (Device.mk ("g") ("G") none ("ガイディング") none none (some (JSNum.fin 0)) none none none))
      (some (Device.mk ("i") ("I") none ("中間") none none (some (JSNum.fin 30)) none none none))
      none (JSNum.fin 0)).gcIcDiffCm = none
    ∧ (PageTsx.useCompatibility
      (some (Device.mk ("g") ("G") none ("ガイディング") none none (some (JSNum.fin 0)) none none none))
      (some (Device.mk ("i") ("I") none ("中間") none none (some (JSNum.fin 30)) none none none))
      none (JSNum.fin 0)).gcIcDiffOK = none
    ∧ JSNum.le (JSNum.fin 20) (JSNum.abs (JSNum.sub (JSNum.fin 0) (JSNum.fin 30))) = true := by
  refine ⟨?_, ?_, ?_⟩
  · rw [pageTsx_gcIcDiffCm]
    simp [optNum, lenDiffGated, mmOk, JSNum.isNaNb, JSNum.lt]
  · rw [pageTsx_gcIcDiffOK]
    simp [optNum, lenDiffGated, mmOk, JSNum.isNaNb, JSNum.lt, ok20]
  · simp [JSNum.sub, JSNum.abs, JSNum.le]
    norm_num

/-- Claim C2 (amended): in part_001's primary evaluator, for each
adjacent pair (guiding–intermediate, intermediate–microA,
intermediate–microB), when both working lengths are present the delta is
`Math.abs` of their difference and the margin judgment is `delta >= 20`
under JavaScript comparison (the 20 boundary judged true), and when
either length is missing both delta and judgment are undefined.  In
page.tsx's evaluator (and the second part_001 variant) a present length
must additionally be non-NaN and strictly positive; otherwise the delta
and judgment are undefined there as well. -/
theorem c2_theorem (gc ic mcA mcB mc : Option Device) (c : JSNum) (a b : JSNum) :
    (optNum gc Device.length_cm = some a → optNum ic Device.length_cm = some b →
      (Part001.useCompatibility gc ic mcA mcB c).gcIcDiffCm = some (JSNum.abs (JSNum.sub a b))
      ∧ (Part001.useCompatibility gc ic mcA mcB c).gcIcDiffOK
          = some (JSNum.le (JSNum.fin 20) (JSNum.abs (JSNum.sub a b))))
    ∧ (optNum ic Device.length_cm = some a → optNum mcA Device.length_cm = some b →
      (Part001.useCompatibility gc ic mcA mcB c).icMcADiffCm = some (JSNum.abs (JSNum.sub a b))
      ∧ (Part001.useCompatibility gc ic mcA mcB c).icMcADiffOK
          = some (JSNum.le (JSNum.fin 20) (JSNum.abs (JSNum.sub a b))))
    ∧ (optNum ic Device.length_cm = some a → optNum mcB Device.length_cm = some b →
      (Part001.useCompatibility gc ic mcA mcB c).icMcBDiffCm = some (JSNum.abs (JSNum.sub a b))
      ∧ (Part001.useCompatibility gc ic mcA mcB c).icMcBDiffOK
          = some (JSNum.le (JSNum.fin 20) (JSNum.abs (JSNum.sub a b))))
    ∧ (optNum gc Device.length_cm = none ∨ optNum ic Device.length_cm = none →
      (Part001.useCompatibility gc ic mcA mcB c).gcIcDiffCm = none
      ∧ (Part001.useCompatibility gc ic mcA mcB c).gcIcDiffOK = none)
    ∧ (optNum gc Device.length_cm = some a → optNum ic Device.length_cm = some b →
      ¬(mmOk (some a) = true ∧ mmOk (some b) = true) →
      (PageTsx.useCompatibility gc ic mc c).gcIcDiffCm = none
      ∧ (PageTsx.useCompatibility gc ic mc c).gcIcDiffOK = none)
    ∧ (optNum gc Device.length_cm = some a → optNum ic Device.length_cm = some b →
      mmOk (some a) = true → mmOk (some b) = true →
      (PageTsx.useCompatibility gc ic mc c).gcIcDiffCm = some (JSNum.abs (JSNum.sub a b))
      ∧ (PageTsx.useCompatibility gc ic mc c).gcIcDiffOK
          = some (JSNum.le (JSNum.fin 20) (JSNum.abs (JSNum.sub a b)))) := by
  refine ⟨?_, ?_, ?_, ?_, ?_, ?_⟩
  · intro h1 h2
    rw [part001_gcIcDiffCm, part001_gcIcDiffOK, h1, h2]
    exact ⟨rfl, rfl⟩
  · intro h1 h2
    rw [part001_icMcADiffCm, part001_icMcADiffOK, h1, h2]
    exact ⟨rfl, rfl⟩
  · intro h1 h2
    rw [part001_icMcBDiffCm, part001_icMcBDiffOK, h1, h2]
    exact ⟨rfl, rfl⟩
  · intro h
    rw [part001_gcIcDiffCm, part001_gcIcDiffOK]
    rcases h with h | h <;> rw [h] <;>
      cases hx : optNum gc Device.length_cm <;> cases hy : optNum ic Device.length_cm <;>
        simp [diffLen, ok20]
  · intro h1 h2 h3
    rw [pageTsx_gcIcDiffCm, pageTsx_gcIcDiffOK, h1, h2]
    have hgate : (mmOk (some a) && mmOk (some b)) = false := by
      cases hA : mmOk (some a) with
      | false => simp [hA]
      | true =>
          cases hB : mmOk (some b) with
          | false => simp [hB]
          | true => exact absurd ⟨hA, hB⟩ h3
    simp [lenDiffGated, hgate, ok20]
  · intro h1 h2 hA hB
    rw [pageTsx_gcIcDiffCm, pageTsx_gcIcDiffOK, h1, h2]
    simp [lenDiffGated, hA, hB, ok20]

/-- Witness for C2 at the spec's boundary example (testable property 6):
lengths 100 cm and 80 cm give delta 20 and judgment true (boundary
inclusive); lengths 100 cm and 81 cm give delta 19 and judgment false;
and a missing length gives undefined delta and judgment. -/
theorem c2_witness :
    (Part001.useCompatibility
      (some (Device.mk ("g") ("G") none ("ガイディング") none none (some (JSNum.fin 100)) none none none))
      (some (Device.mk ("i") ("I") none ("中間") none none (some (JSNum.fin 80)) none none none))
      none none (JSNum.fin 0)).gcIcDiffOK = some true
    ∧ (Part001.useCompatibility
      (some (Device.mk ("g") ("G") none ("ガイディング") none none (some (JSNum.fin 100)) none none none))
      (some (Device.mk ("i") ("I") none ("中間") none none (some (JSNum.fin 81)) none none none))
      none none (JSNum.fin 0)).gcIcDiffOK = some false
    ∧ (Part001.useCompatibility
      (some (Device.mk ("g") ("G") none ("ガイディング") none none (some (JSNum.fin 100)) none none none))
      (some (Device.mk ("i") ("I") none ("中間") none none none none none none))
      none none (JSNum.fin 0)).gcIcDiffOK = none := by
  refine ⟨?_, ?_, ?_⟩
  · have h := ((c2_theorem
      (some (Device.mk ("g") ("G") none ("ガイディング") none none (some (JSNum.fin 100)) none none none))
      (some (Device.mk ("i") ("I") none ("中間") none none (some (JSNum.fin 80)) none none none))
      none none none (JSNum.fin 0) (JSNum.fin 100) (JSNum.fin 80)).1 rfl rfl).2
    rw [h]
    simp [JSNum.sub, JSNum.abs, JSNum.le]
    norm_num
  · have h := ((c2_theorem
      (some (Device.mk ("g") ("G") none ("ガイディング") none none (some (JSNum.fin 100)) none none none))
      (some (Device.mk ("i") ("I") none ("中間") none none (some (JSNum.fin 81)) none none none))
      none none none (JSNum.fin 0) (JSNum.fin 100) (JSNum.fin 81)).1 rfl rfl).2
    rw [h]
    simp [JSNum.sub, JSNum.abs, JSNum.le]
    norm_num
  · have h := (c2_theorem
      (some (Device.mk ("g") ("G") none ("ガイディング") none none (some (JSNum.fin 100)) none none none))
      (some (Device.mk ("i") ("I") none ("中間") none none none none none none))
      none none none (JSNum.fin 0) (JSNum.fin 100) (JSNum.fin 81)).2.2.2.1 (Or.inr rfl)
    exact h.2

/-- Claim C10 (confirmed): in part_001's primary evaluator the
length-difference helper gates only on the operands being numbers, so
when both lengths are present and at least one is NaN the delta is NaN
and the margin judgment is the confident `false`, not undefined. -/
theorem c10_theorem (gc ic mcA mcB : Option Device) (c : JSNum) (a b : JSNum) :
    optNum gc Device.length_cm = some a → optNum ic Device.length_cm = some b →
    (a = JSNum.nan ∨ b = JSNum.nan) →
    (Part001.useCompatibility gc ic mcA mcB c).gcIcDiffCm = some JSNum.nan
    ∧ (Part001.useCompatibility gc ic mcA mcB c).gcIcDiffOK = some false := by
  intro h1 h2 h3
  have hsub : JSNum.sub a b = JSNum.nan := by
    rcases h3 with h | h <;> subst h
    · cases b <;> rfl
    · cases a <;> rfl
  rw [part001_gcIcDiffCm, part001_gcIcDiffOK, h1, h2]
  simp [diffLen, ok20, hsub, JSNum.abs, JSNum.le]

/-- Witness for C10: a guiding device with length 100 cm and an
intermediate device whose `length_cm` is present but NaN produce a NaN
delta and a `false` margin judgment. -/
theorem c10_witness :
    (Part001.useCompatibility
      (some (Device.mk ("g") ("G") none ("ガイディング") none none (some (JSNum.fin 100)) none none none))
      (some (Device.mk ("i") ("I") none ("中間") none none (some JSNum.nan) none none none))
      none none (JSNum.fin 0)).gcIcDiffCm = some JSNum.nan
    ∧ (Part001.useCompatibility
      (some (Device.mk ("g") ("G") none ("ガイディング") none none (some (JSNum.fin 100)) none none none))
      (some (Device.mk ("i") ("I") none ("中間") none none (some JSNum.nan) none none none))
      none none (JSNum.fin 0)).gcIcDiffOK = some false :=
  c10_theorem
    (some (Device.mk ("g") ("G") none ("ガイディング") none none (some (JSNum.fin 100)) none none none))
    (some (Device.mk ("i") ("I") none ("中間") none none (some JSNum.nan) none none none))
    none none (JSNum.fin 0) (JSNum.fin 100) JSNum.nan rfl rfl (Or.inr rfl)

/-- Projection of the primary part_001 evaluator's dual-micro verdict:
`need = mcA.od_mm + mcB.od_mm + 2 * clearanceMm` (clearance counted
twice). -/
theorem part001_twoInIcOK (gc ic mcA mcB : Option Device) (c : JSNum) :
    (Part001.useCompatibility gc ic mcA mcB c).twoInIcOK
      = match optNum ic Device.id_mm, optNum mcA Device.od_mm, optNum mcB Device.od_mm with
        | some i, some a, some b =>
            if mmOk (some i) && mmOk (some a) && mmOk (some b) then
              some (JSNum.le (JSNum.add (JSNum.add a b) (JSNum.mul (JSNum.fin 2) c)) i)
            else none
        | _, _, _ => none := rfl

/-- Projection of the second part_001 evaluator's dual-micro verdict:
`need = (mcA.od_mm + mcB.od_mm) + 1 * clearanceMm` (clearance counted
once). -/
theorem part001V2_twoInIcOK (gc ic mcA mcB : Option Device) (c : JSNum) :
    (Part001V2.useCompatibility gc ic mcA mcB c).twoInIcOK
      = match optNum ic Device.id_mm, optNum mcA Device.od_mm, optNum mcB Device.od_mm with
        | some i, some a, some b =>
            if mmOk (some i) && mmOk (some a) && mmOk (some b) then
              some (JSNum.le (JSNum.add (JSNum.add a b) (JSNum.mul (JSNum.fin 1) c)) i)
            else none
        | _, _, _ => none := rfl

/-- The spec's helper predicate `hasPositiveMeasurement(x)` — modelled
from the spec's words ("a finite number strictly greater than zero") for
comparison with the implementation's `mmOk`. -/
def hasPositiveMeasurement : Option JSNum → Bool
  | some (JSNum.fin q) => decide (0 < q)
  | _ => false

/-- The dual-microcatheter verdict exactly as claim C3 words it: computed
only when the intermediate inner diameter and both micro outer diameters
are finite and strictly positive, and then equal to
`microA.od_mm + microB.od_mm + k * clearance_mm <= intermediate.id_mm`. -/
def dualFormula (k : ℚ) (idm oda odb : Option JSNum) (c : JSNum) : Option Bool :=
  if hasPositiveMeasurement idm && hasPositiveMeasurement oda && hasPositiveMeasurement odb then
    match idm, oda, odb with
    | some i, some a, some b =>
        some (JSNum.le (JSNum.add (JSNum.add a b) (JSNum.mul (JSNum.fin k) c)) i)
    | _, _, _ => none
  else none

/-- Claim C3 as stated: a single fixed `k` equal to 1 or 2 is used
consistently by the implementation (the two part_001 evaluator variants
cited by the claim) for the dual-microcatheter verdict. -/
def ClaimC3 : Prop :=
  ∃ k : ℚ, (k = 1 ∨ k = 2) ∧
    ∀ (gc ic mcA mcB : Option Device) (c : JSNum),
      (Part001.useCompatibility gc ic mcA mcB c).twoInIcOK
        = dualFormula k (optNum ic Device.id_mm) (optNum mcA Device.od_mm)
            (optNum mcB Device.od_mm) c
      ∧ (Part001V2.useCompatibility gc ic mcA mcB c).twoInIcOK
        = dualFormula k (optNum ic Device.id_mm) (optNum mcA Device.od_mm)
            (optNum mcB Device.od_mm) c

/-- Claim C3, counterexample: no single `k` fits both evaluator variants
in part_001.  With intermediate id 2 mm, both micro od 0.9 mm and
clearance 0.2 mm, the primary evaluator (k = 2) computes
`1.8 + 0.4 = 2.2 <= 2` i.e. `false`, while the second variant (k = 1)
computes `1.8 + 0.2 = 2.0 <= 2` i.e. `true`. -/
theorem c3_counterexample : ¬ ClaimC3 := by
  rintro ⟨k, _, h⟩
  have hpair := h none
    (some (Device.mk ("i") ("I") none ("中間") (some (JSNum.fin 2)) none none none none none))
    (some (Device.mk ("a") ("A") none ("マイクロ") none (some (JSNum.fin (9 / 10))) none none none none))
    (some (Device.mk ("b") ("B") none ("マイクロ") none (some (JSNum.fin (9 / 10))) none none none none))
    (JSNum.fin (1 / 5))
  have e1 : (Part001.useCompatibility none
      (some (Device.mk ("i") ("I") none ("中間") (some (JSNum.fin 2)) none none none none none))
      (some (Device.mk ("a") ("A") none ("マイクロ") none (some (JSNum.fin (9 / 10))) none none none none))
      (some (Device.mk ("b") ("B") none ("マイクロ") none (some (JSNum.fin (9 / 10))) none none none none))
      (JSNum.fin (1 / 5))).twoInIcOK = some false := by
    rw [part001_twoInIcOK]
    simp [optNum, mmOk, JSNum.isNaNb, JSNum.lt, JSNum.add, JSNum.mul, JSNum.le]
    norm_num
  have e2 : (Part001V2.useCompatibility none
      (some (Device.mk ("i") ("I") none ("中間") (some (JSNum.fin 2)) none none none none none))
      (some (Device.mk ("a") ("A") none ("マイクロ") none (some (JSNum.fin (9 / 10))) none none none none))
      (some (Device.mk ("b") ("B") none ("マイクロ") none (some (JSNum.fin (9 / 10))) none none none none))
      (JSNum.fin (1 / 5))).twoInIcOK = some true := by
    rw [part001V2_twoInIcOK]
    simp [optNum, mmOk, JSNum.isNaNb, JSNum.lt, JSNum.add, JSNum.mul, JSNum.le]
    norm_num
  have hcontra := (hpair.1.symm.trans e1).symm.trans (hpair.2.symm.trans e2)
  simp at hcontra

/-- Claim C3 (amended): each variant's dual-micro verdict is computed
exactly when the intermediate id and both micro ods pass `mmOk`
(present, non-NaN, strictly positive — not the claim's "finite"), and
each variant uses its own fixed clearance multiplier: the primary
part_001 evaluator k = 2, the second variant k = 1; the two variants do
not share a single k (see `c3_counterexample`). -/
theorem c3_theorem (gc ic mcA mcB : Option Device) (c : JSNum) :
    ((Part001.useCompatibility gc ic mcA mcB c).twoInIcOK = none
      ↔ ¬(mmOk (optNum ic Device.id_mm) = true ∧ mmOk (optNum mcA Device.od_mm) = true
          ∧ mmOk (optNum mcB Device.od_mm) = true))
    ∧ (∀ i a b, optNum ic Device.id_mm = some i → optNum mcA Device.od_mm = some a →
        optNum mcB Device.od_mm = some b → mmOk (some i) = true → mmOk (some a) = true →
        mmOk (some b) = true →
        (Part001.useCompatibility gc ic mcA mcB c).twoInIcOK
          = some (JSNum.le (JSNum.add (JSNum.add a b) (JSNum.mul (JSNum.fin 2) c)) i)
        ∧ (Part001V2.useCompatibility gc ic mcA mcB c).twoInIcOK
          = some (JSNum.le (JSNum.add (JSNum.add a b) (JSNum.mul (JSNum.fin 1) c)) i)) := by
  constructor
  · rw [part001_twoInIcOK]
    cases hi : optNum ic Device.id_mm with
    | none => simp [mmOk]
    | some i =>
        cases ha : optNum mcA Device.od_mm with
        | none => simp [mmOk]
        | some a =>
            cases hb : optNum mcB Device.od_mm with
            | none => simp [mmOk]
            | some b =>
                cases h1 : mmOk (some i) <;> cases h2 : mmOk (some a) <;>
                  cases h3 : mmOk (some b) <;> simp [h1, h2, h3]
  · intro i a b hi ha hb h1 h2 h3
    rw [part001_twoInIcOK, part001V2_twoInIcOK, hi, ha, hb]
    simp [h1, h2, h3]

/-- Witness for C3 at the k-discriminating input: intermediate id 2 mm,
micro ods 0.9 mm each, clearance 0.2 mm — the primary evaluator says
`false`, the second variant says `true`. -/
theorem c3_witness :
    (Part001.useCompatibility none
      (some (Device.mk ("i") ("I") none ("中間") (some (JSNum.fin 2)) none none none none none))
      (some (Device.mk ("a") ("A") none ("マイクロ") none (some (JSNum.fin (9 / 10))) none none none none))
      (some (Device.mk ("b") ("B") none ("マイクロ") none (some (JSNum.fin (9 / 10))) none none none none))
      (JSNum.fin (1 / 5))).twoInIcOK = some false
    ∧ (Part001V2.useCompatibility none
      (some (Device.mk ("i") ("I") none ("中間") (some (JSNum.fin 2)) none none none none none))
      (some (Device.mk ("a") ("A") none ("マイクロ") none (some (JSNum.fin (9 / 10))) none none none none))
      (some (Device.mk ("b") ("B") none ("マイクロ") none (some (JSNum.fin (9 / 10))) none none none none))
      (JSNum.fin (1 / 5))).twoInIcOK = some true := by
  have h := (c3_theorem none
    (some (Device.mk ("i") ("I") none ("中間") (some (JSNum.fin 2)) none none none none none))
    (some (Device.mk ("a") ("A") none ("マイクロ") none (some (JSNum.fin (9 / 10))) none none none none))
    (some (Device.mk ("b") ("B") none ("マイクロ") none (some (JSNum.fin (9 / 10))) none none none none))
    (JSNum.fin (1 / 5))).2 (JSNum.fin 2) (JSNum.fin (9 / 10)) (JSNum.fin (9 / 10))
    rfl rfl rfl
    (by simp [mmOk, JSNum.isNaNb, JSNum.lt])
    (by simp [mmOk, JSNum.isNaNb, JSNum.lt])
    (by simp [mmOk, JSNum.isNaNb, JSNum.lt])
  constructor
  · rw [h.1]
    simp [JSNum.add, JSNum.mul, JSNum.le]
    norm_num
  · rw [h.2]
    simp [JSNum.add, JSNum.mul, JSNum.le]
    norm_num

theorem part001_mcAInIcOK (gc ic mcA mcB : Option Device) (c : JSNum) :
    (Part001.useCompatibility gc ic mcA mcB c).mcAInIcOK
      = fitOK (optNum ic Device.id_mm) (optNum mcA Device.od_mm) c := rfl

theorem part001_mcBInIcOK (gc ic mcA mcB : Option Device) (c : JSNum) :
    (Part001.useCompatibility gc ic mcA mcB c).mcBInIcOK
      = fitOK (optNum ic Device.id_mm) (optNum mcB Device.od_mm) c := rfl

/-- Aggregate "all good" as claim C4 words it — modelled from the spec:
every judgment that was actually evaluated (is not undefined) is true. -/
def allGoodSpec (l : List (Option Bool)) : Bool := l.all (fun v => v.getD true)

/-- Claim C4, counterexample: with a guiding id of 2 mm and an
intermediate od of 1 mm and nothing else selected, the only evaluated
judgment is `icInGcOK = true` and all others are undefined; the claim
says "all good" should hold (every evaluated judgment is true,
`allGoodSpec`), but the implementation's `allGood` requires every
judgment — undefined ones included — to be `true` and reports `false`. -/
theorem c4_counterexample :
    Part001.allGood (Part001.useCompatibility
      (some (Device.mk ("g") ("G") none ("ガイディング") (some (JSNum.fin 2)) none none none none none))
      (some (Device.mk ("i") ("I") none ("中間") none (some (JSNum.fin 1)) none none none none))
      none none (JSNum.fin 0)) = false
    ∧ allGoodSpec (Part001.verdictList (Part001.useCompatibility
      (some (Device.mk ("g") ("G") none ("ガイディング") (some (JSNum.fin 2)) none none none none none))
      (some (Device.mk ("i") ("I") none ("中間") none (some (JSNum.fin 1)) none none none none))
      none none (JSNum.fin 0))) = true
    ∧ Part001.anyIssue (Part001.useCompatibility
      (some (Device.mk ("g") ("G") none ("ガイディング") (some (JSNum.fin 2)) none none none none none))
      (some (Device.mk ("i") ("I") none ("中間") none (some (JSNum.fin 1)) none none none none))
      none none (JSNum.fin 0)) = false := by
  have hlist : Part001.verdictList (Part001.useCompatibility
      (some (Device.mk ("g") ("G") none ("ガイディング") (some (JSNum.fin 2)) none none none none none))
      (some (Device.mk ("i") ("I") none ("中間") none (some (JSNum.fin 1)) none none none none))
      none none (JSNum.fin 0)) = [some true, none, none, none, none, none, none] := by
    simp only [Part001.verdictList, part001_icInGcOK, part001_mcAInIcOK, part001_mcBInIcOK,
      part001_twoInIcOK, part001_gcIcDiffOK, part001_icMcADiffOK, part001_icMcBDiffOK]
    simp [optNum, fitOK, diffLen, ok20, mmOk, JSNum.isNaNb, JSNum.lt, JSNum.add, JSNum.le]
  refine ⟨?_, ?_, ?_⟩
  · simp only [Part001.allGood, hlist]
    simp
  · simp only [allGoodSpec, hlist]
    simp
  · simp only [Part001.anyIssue, hlist]
    simp

/-- Claim C4 (amended): the aggregate "any issue" flag is true exactly
when at least one judgment is explicitly false (undefined judgments do
not count), and "all good" is true exactly when every judgment —
including the undefined ones — is explicitly `true`, so any undefined
judgment prevents "all good"; an all-undefined verdict set is neither
"any issue" nor "all good". -/
theorem c4_theorem (gc ic mcA mcB : Option Device) (c : JSNum) :
    (Part001.anyIssue (Part001.useCompatibility gc ic mcA mcB c) = true
      ↔ ∃ v ∈ Part001.verdictList (Part001.useCompatibility gc ic mcA mcB c), v = some false)
    ∧ (Part001.allGood (Part001.useCompatibility gc ic mcA mcB c) = true
      ↔ ∀ v ∈ Part001.verdictList (Part001.useCompatibility gc ic mcA mcB c), v = some true)
    ∧ ((∀ v ∈ Part001.verdictList (Part001.useCompatibility gc ic mcA mcB c), v = none) →
      Part001.anyIssue (Part001.useCompatibility gc ic mcA mcB c) = false
      ∧ Part001.allGood (Part001.useCompatibility gc ic mcA mcB c) = false) := by
  refine ⟨?_, ?_, ?_⟩
  · simp [Part001.anyIssue, List.any_eq_true]
  · simp [Part001.allGood, List.all_eq_true]
  · intro h
    have h1 : (Part001.useCompatibility gc ic mcA mcB c).icInGcOK = none :=
      h _ (by simp [Part001.verdictList])
    constructor
    · simp only [Part001.anyIssue, List.any_eq_false]
      intro v hv
      simp [h v hv]
    · simp only [Part001.allGood, List.all_eq_false]
      refine ⟨(Part001.useCompatibility gc ic mcA mcB c).icInGcOK,
        by simp [Part001.verdictList], by simp [h1]⟩

/-- Witness for C4: with nothing selected every judgment is undefined
and the evaluator reports neither "any issue" nor "all good". -/
theorem c4_witness :
    Part001.anyIssue (Part001.useCompatibility none none none none (JSNum.fin 0)) = false
    ∧ Part001.allGood (Part001.useCompatibility none none none none (JSNum.fin 0)) = false :=
  (c4_theorem none none none none (JSNum.fin 0)).2.2 (by decide)

/-- The row mapping errors only with the modelled TypeError message. -/
theorem mkDevice_error (header row : List String) (e : String)
    (h : Part001.mkDevice header row = Except.error e) : e = Part001.catRawTypeError := by
  simp only [Part001.mkDevice] at h
  split at h
  · exact absurd h (by simp)
  · split at h
    · exact absurd h (by simp)
    · split at h
      · exact (Except.error.inj h).symm
      · exact absurd h (by simp)

/-- The row loop either succeeds or aborts with the TypeError. -/
theorem rowLoop_shape (header : List String) (rows : List (List String)) :
    (∃ ds, Part001.rowLoop header rows = Except.ok ds)
    ∨ Part001.rowLoop header rows = Except.error Part001.catRawTypeError := by
  induction rows with
  | nil => exact Or.inl ⟨[], rfl⟩
  | cons row rows ih =>
      simp only [Part001.rowLoop]
      cases hm : Part001.mkDevice header row with
      | error e =>
          rw [mkDevice_error header row e hm]
          exact Or.inr rfl
      | ok o =>
          cases o with
          | none => simpa using ih
          | some d =>
              rcases ih with ⟨ds, hds⟩ | herr
              · rw [hds]
                exact Or.inl ⟨d :: ds, rfl⟩
              · rw [herr]
                exact Or.inr rfl

/-- Claim C6, counterexample: page.tsx's `csvToDevices` (a cited source)
returns the empty list — a silent success, not an "empty data" error —
for a header-only input, indistinguishable from the soft success on a
table whose only data row is skipped for lacking a name. -/
theorem c6_counterexample :
    PageTsx.csvToDevices ("name,id_mm") = []
    ∧ PageTsx.csvToDevices ("name,id_mm\n,1") = [] := by
  constructor
  · decide
  · decide

/-- Claim C6 (amended): part_001's primary `csvToDevices` throws the
"empty data" error exactly when the parsed table has fewer than two
rows, and succeeds otherwise; page.tsx's `csvToDevices` (like part_001's
second variant) instead silently returns an empty list on fewer than two
rows, so its callers cannot distinguish that case from zero valid rows
surviving row-level filtering. -/
theorem c6_theorem (text : String) :
    ((parseCSV text).length < 2 →
      Part001.csvToDevices text = Except.error ("CSVにデータ行がありません")
      ∧ PageTsx.csvToDevices text = [])
    ∧ (2 ≤ (parseCSV text).length →
      Part001.csvToDevices text ≠ Except.error ("CSVにデータ行がありません")
      ∧ ((∃ ds, Part001.csvToDevices text = Except.ok ds)
          ∨ Part001.csvToDevices text = Except.error Part001.catRawTypeError)) := by
  constructor
  · intro h
    constructor
    · unfold Part001.csvToDevices
      split
      · rfl
      · rfl
      · next headerRow r1 rest heq =>
          rw [heq] at h
          simp at h
          omega
    · unfold PageTsx.csvToDevices
      split
      · next headerRow r1 rest heq =>
          rw [heq] at h
          simp at h
          omega
      · rfl
  · intro h
    unfold Part001.csvToDevices
    split
    · next heq => rw [heq] at h; simp at h
    · next heq => rw [heq] at h; simp at h
    · next headerRow r1 rest heq =>
        constructor
        · rcases rowLoop_shape (headerRow.map Part001.normalizeHeader) (r1 :: rest)
            with ⟨ds, hds⟩ | herr
          · rw [hds]; simp
          · rw [herr]; simp [Part001.catRawTypeError]
        · exact rowLoop_shape _ _

/-- Witness for C6: a lone header row makes part_001's ingestion fail
with the "empty data" error and page.tsx's return an empty success; a
header plus one well-formed data row makes part_001's ingestion succeed;
and a two-row input whose named data row is shorter than the category
column makes part_001's ingestion throw the TypeError, not the "empty
data" error. -/
theorem c6_witness :
    Part001.csvToDevices ("name") = Except.error ("CSVにデータ行がありません")
    ∧ PageTsx.csvToDevices ("name") = []
    ∧ (∃ ds, Part001.csvToDevices ("name\nX") = Except.ok ds)
    ∧ Part001.csvToDevices ("name,category\nX") = Except.error Part001.catRawTypeError
    ∧ Part001.csvToDevices ("name,category\nX") ≠ Except.error ("CSVにデータ行がありません") := by
  refine ⟨?_, ?_, ?_, ?_, ?_⟩
  · exact ((c6_theorem ("name")).1 (by decide)).1
  · exact ((c6_theorem ("name")).1 (by decide)).2
  · refine ⟨[Device.mk ("マイクロ::X") ("X") none ("マイクロ") none none none none none none], ?_⟩
    rfl
  · rfl
  · exact ((c6_theorem ("name,category\nX")).2 (by decide)).1

/-- Claim C7, evaluated on the code (code bug in part_001's ingestion):
metric precedence holds when the metric cell carries a value, and
alternate-unit backfill works when the metric column is absent from the
header; but `Number("") = 0` passes part_001's `Number.isFinite` guard,
so a row with a present-but-blank `id_mm` cell and `id_inch = 0.1`
resolves `id_mm` to `0` and suppresses the backfill, where the claim
(and page.tsx's ingestion, shown last) require `0.1 * 25.4 = 2.54`. -/
theorem c7_theorem :
    (Part001.csvToDevices ("name,id_mm,id_inch\nX,2.0,0.1")).toOption.map
        (fun l => l.map Device.id_mm) = some [some (JSNum.fin 2)]
    ∧ (PageTsx.csvToDevices ("name,id_mm,id_inch\nX,2.0,0.1")).map Device.id_mm
        = [some (JSNum.fin 2)]
    ∧ (Part001.csvToDevices ("name,id_inch\nX,0.1")).toOption.map
        (fun l => l.map Device.id_mm) = some [some (JSNum.fin (127 / 50))]
    ∧ (Part001.csvToDevices ("name,od_fr\nX,8")).toOption.map
        (fun l => l.map Device.od_mm) = some [some (JSNum.fin (66 / 25))]
    ∧ (Part001.csvToDevices ("name,id_mm,id_inch\nX,,0.1")).toOption.map
        (fun l => l.map Device.id_mm) = some [some (JSNum.fin 0)]
    ∧ (PageTsx.csvToDevices ("name,id_mm,id_inch\nX,,0.1")).map Device.id_mm
        = [some (JSNum.fin (127 / 50))] := by
  refine ⟨?_, ?_, ?_, ?_, ?_, ?_⟩
  · have hp : parseCSV ("name,id_mm,id_inch\nX,2.0,0.1")
        = [["name", "id_mm", "id_inch"], ["X", "2.0", "0.1"]] := by decide
    simp [Part001.csvToDevices, hp, Part001.rowLoop, Except.map, Part001.mkDevice, Part001.col, Part001.normalizeHeader,
      Part001.cellAt, Part001.toNumber, jsTrim, jsLower, trimChars, jsNumber, jsNumberCore,
      natOfDigits, strIncludes, hasSubAux, leadsWith, inchToMm, JSNum.mul]
    exact ⟨_, rfl, rfl⟩
  · have hp : parseCSV ("name,id_mm,id_inch\nX,2.0,0.1")
        = [["name", "id_mm", "id_inch"], ["X", "2.0", "0.1"]] := by decide
    simp [PageTsx.csvToDevices, hp, PageTsx.mkDevice, PageTsx.colIdx, PageTsx.truthy,
      cellAtIdx, jsTrim, jsLower, trimChars, jsNumber, jsNumberCore, natOfDigits,
      strIncludes, hasSubAux, leadsWith, inchToMm, JSNum.mul, List.enumFrom]
  · have hp : parseCSV ("name,id_inch\nX,0.1") = [["name", "id_inch"], ["X", "0.1"]] := by
      decide
    simp [Part001.csvToDevices, hp, Part001.rowLoop, Except.map, Part001.mkDevice, Part001.col, Part001.normalizeHeader,
      Part001.cellAt, Part001.toNumber, jsTrim, jsLower, trimChars, jsNumber, jsNumberCore,
      natOfDigits, strIncludes, hasSubAux, leadsWith, inchToMm, JSNum.mul]
    refine ⟨_, rfl, ?_⟩
    simp
    norm_num
  · have hp : parseCSV ("name,od_fr\nX,8") = [["name", "od_fr"], ["X", "8"]] := by decide
    simp [Part001.csvToDevices, hp, Part001.rowLoop, Except.map, Part001.mkDevice, Part001.col, Part001.normalizeHeader,
      Part001.cellAt, Part001.toNumber, jsTrim, jsLower, trimChars, jsNumber, jsNumberCore,
      natOfDigits, strIncludes, hasSubAux, leadsWith, frToMm, JSNum.mul]
    refine ⟨_, rfl, ?_⟩
    simp
    norm_num
  · have hp : parseCSV ("name,id_mm,id_inch\nX,,0.1")
        = [["name", "id_mm", "id_inch"], ["X", "", "0.1"]] := by decide
    simp [Part001.csvToDevices, hp, Part001.rowLoop, Except.map, Part001.mkDevice, Part001.col, Part001.normalizeHeader,
      Part001.cellAt, Part001.toNumber, jsTrim, jsLower, trimChars, jsNumber, jsNumberCore,
      natOfDigits, strIncludes, hasSubAux, leadsWith, inchToMm, JSNum.mul]
    exact ⟨_, rfl, rfl⟩
  · have hp : parseCSV ("name,id_mm,id_inch\nX,,0.1")
        = [["name", "id_mm", "id_inch"], ["X", "", "0.1"]] := by decide
    simp [PageTsx.csvToDevices, hp, PageTsx.mkDevice, PageTsx.colIdx, PageTsx.truthy,
      cellAtIdx, jsTrim, jsLower, trimChars, jsNumber, jsNumberCore, natOfDigits,
      strIncludes, hasSubAux, leadsWith, inchToMm, JSNum.mul, List.enumFrom]
    norm_num

/-- Claim C9 (confirmed): the CSV parser honors quoting — the claim's
exact example parses to the two claimed rows, a quoted field keeps
delimiters and newlines as literal content, and a doubled quote inside a
quoted field emits one literal quote. -/
theorem c9_theorem :
    parseCSV ("\"a,b\",c\nd,\"e\"\"f\",g") = [["a,b", "c"], ["d", "e\"f", "g"]]
    ∧ parseCSV ("\"x,y\nz\",w") = [["x,y\nz", "w"]]
    ∧ parseCSV ("\"a\"\"b\"") = [["a\"b"]] := by
  refine ⟨?_, ?_, ?_⟩
  · decide
  · decide
  · decide

/-- Claim C8, counterexample: the page.tsx merge (a cited source) is
keyed by `category::name` alone, not by id with a fallback — two devices
with distinct non-blank ids but the same category and name collapse to
one record there, while the part_001 merge keeps both. -/
theorem c8_counterexample :
    PageTsx.mergeStore
      [Device.mk ("x") ("N") (some ("M1")) ("マイクロ") none none none none none none]
      [Device.mk ("y") ("N") (some ("M2")) ("マイクロ") none none none none none none]
      = [Device.mk ("y") ("N") (some ("M2")) ("マイクロ") none none none none none none]
    ∧ Part001.mergeStore
      [Device.mk ("x") ("N") (some ("M1")) ("マイクロ") none none none none none none]
      [Device.mk ("y") ("N") (some ("M2")) ("マイクロ") none none none none none none]
      = [Device.mk ("x") ("N") (some ("M1")) ("マイクロ") none none none none none none,
         Device.mk ("y") ("N") (some ("M2")) ("マイクロ") none none none none none none] := by
  constructor
  · decide
  · decide

/-- Claim C8 (amended): the part_001 merge is keyed by each device's id
falling back to `category::name` when the id is blank, existing records
inserted first and incoming second, so the store holds at each key the
last incoming record with that key, else the last existing one (same-key
incoming overwrites, existing-only keys are preserved); the page.tsx
merge has the same insertion semantics but is keyed by `category::name`
unconditionally.  Both merges are idempotent: merging an identical
incoming list a second time leaves the store equal. -/
theorem c8_theorem (prev incoming : List Device) (j : String) (d : Device) :
    (assocFind (insAll Part001.mergeKey (insAll Part001.mergeKey [] prev) incoming) j
      = (lastKeyed Part001.mergeKey j incoming).elim
          ((lastKeyed Part001.mergeKey j prev).elim none some) some)
    ∧ (lastKeyed Part001.mergeKey j incoming = some d → d ∈ Part001.mergeStore prev incoming)
    ∧ (lastKeyed Part001.mergeKey j incoming = none →
        lastKeyed Part001.mergeKey j prev = some d → d ∈ Part001.mergeStore prev incoming)
    ∧ Part001.mergeStore (Part001.mergeStore prev incoming) incoming
        = Part001.mergeStore prev incoming
    ∧ PageTsx.mergeStore (PageTsx.mergeStore prev incoming) incoming
        = PageTsx.mergeStore prev incoming := by
  refine ⟨?_, ?_, ?_, ?_, ?_⟩
  · exact mergeRun_find _ prev incoming j
  · intro h
    have hfind := mergeRun_find Part001.mergeKey prev incoming j
    rw [h] at hfind
    exact List.mem_map_of_mem Prod.snd (mem_of_assocFind _ j d hfind)
  · intro h1 h2
    have hfind := mergeRun_find Part001.mergeKey prev incoming j
    rw [h1, h2] at hfind
    exact List.mem_map_of_mem Prod.snd (mem_of_assocFind _ j d hfind)
  · exact mergeRun_idem _ prev incoming
  · exact mergeRun_idem _ prev incoming

/-- Witness for C8 at the spec's merge example (testable property 8):
merging a store holding `A: v1` with incoming `A: v2, B: v3` stores the
incoming `v2` for key `A`, and a key present only in the existing store
keeps its record. -/
theorem c8_witness :
    (Device.mk ("A") ("n") (some ("v2")) ("マイクロ") none none none none none none)
      ∈ Part001.mergeStore
        [Device.mk ("A") ("n") (some ("v1")) ("マイクロ") none none none none none none]
        [Device.mk ("A") ("n") (some ("v2")) ("マイクロ") none none none none none none,
         Device.mk ("B") ("m") (some ("v3")) ("マイクロ") none none none none none none]
    ∧ (Device.mk ("A") ("n") (some ("v1")) ("マイクロ") none none none none none none)
      ∈ Part001.mergeStore
        [Device.mk ("A") ("n") (some ("v1")) ("マイクロ") none none none none none none]
        [Device.mk ("B") ("m") (some ("v3")) ("マイクロ") none none none none none none] := by
  constructor
  · exact (c8_theorem
      [Device.mk ("A") ("n") (some ("v1")) ("マイクロ") none none none none none none]
      [Device.mk ("A") ("n") (some ("v2")) ("マイクロ") none none none none none none,
       Device.mk ("B") ("m") (some ("v3")) ("マイクロ") none none none none none none]
      ("A") (Device.mk ("A") ("n") (some ("v2")) ("マイクロ") none none none none none none)).2.1
      (by decide)
  · exact (c8_theorem
      [Device.mk ("A") ("n") (some ("v1")) ("マイクロ") none none none none none none]
      [Device.mk ("B") ("m") (some ("v3")) ("マイクロ") none none none none none none]
      ("A") (Device.mk ("A") ("n") (some ("v1")) ("マイクロ") none none none none none none)).2.2.1
      (by decide) (by decide)
